import Mathlib

/-!
Verification of `import_aws_to_localstack.py` (Import-AWS-To-Localstack).

The development shallowly embeds the migration engine of the script:
optional-substring name filtering, the DynamoDB table translator and
scan/batch-write data copy, per-kind migration loops over an abstract
target state, the Cognito trigger stubber, the RDS dump/restore cleanup
path and the RDS create-request builder.  Python `None`/empty-string
truthiness is modelled explicitly (`pyTruthy`); dictionaries with
optional keys are modelled as structures with `Option` fields where the
source reads them with `.get`.
-/

namespace AwsToLocalstack

/-- Outcome of migrating one resource instance. -/
inductive Outcome
  | created
  | alreadyExists
  | failed
  deriving Repr, DecidableEq

/-- Python truthiness of an optional string: `None` and `""` are falsy,
every other string is truthy.  Mirrors `if filter_name and ...`. -/
def pyTruthy : Option String → Bool
  | none => false
  | some s => !(s == "")

/-- Python's substring test `needle in hay`, as code-point containment. -/
def strContains (hay needle : String) : Bool :=
  decide (needle.toList <:+: hay.toList)

theorem strContains_iff (hay needle : String) :
    strContains hay needle = true ↔ needle.toList <:+: hay.toList := by
  simp [strContains]

/-- `clone_s3_buckets` line 66: `if filter_name and filter_name not in
bucket_name: continue`.  `true` means the bucket is skipped. -/
def s3SkipBucket (filterName : Option String) (bucketName : String) : Bool :=
  pyTruthy filterName && !(strContains bucketName (filterName.getD ("")))

/-- Inclusion decision of the bucket loop (negation of the skip test). -/
def s3IncludesBucket (filterName : Option String) (bucketName : String) : Bool :=
  !(s3SkipBucket filterName bucketName)

/-- `clone_ec2_instances` line 84: the `Name` tag value of an instance,
`next((tag['Value'] for tag in tags if tag['Key'] == 'Name'), None)`. -/
def ec2InstanceName (tags : List (String × String)) : Option String :=
  (tags.find? (fun t => t.1 == "Name")).map (fun t => t.2)

/-- `clone_ec2_instances` line 85: `if filter_name and (not instance_name
or filter_name not in instance_name): continue`. -/
def ec2SkipInstance (filterName : Option String) (instanceName : Option String) : Bool :=
  pyTruthy filterName &&
    (!(pyTruthy instanceName) ||
      !(strContains (instanceName.getD ("")) (filterName.getD (""))))

/-- Inclusion decision of the EC2 instance loop. -/
def ec2IncludesInstance (filterName : Option String) (instanceName : Option String) : Bool :=
  !(ec2SkipInstance filterName instanceName)

/-- C5: with no filter every candidate is included; with a filter `f` a
candidate is included iff its identifier contains `f` as a case-sensitive
substring.  Stated for the bucket loop and for the EC2 loop on a named
instance; the two loops share the same predicate shape. -/
theorem name_filter_characterisation (f name : String) :
    s3IncludesBucket none name = true ∧
    (s3IncludesBucket (some f) name = true ↔ f.toList <:+: name.toList) ∧
    ec2IncludesInstance none (some name) = true ∧
    (ec2IncludesInstance (some f) (some name) = true ↔ f.toList <:+: name.toList) := by
  refine ⟨rfl, ?_, rfl, ?_⟩
  · by_cases hf : f = ""
    · subst hf
      simp [s3IncludesBucket, s3SkipBucket, pyTruthy]
    · simp [s3IncludesBucket, s3SkipBucket, pyTruthy, hf, strContains]
  · by_cases hf : f = ""
    · subst hf
      simp [ec2IncludesInstance, ec2SkipInstance, pyTruthy]
    · by_cases hn : name = ""
      · subst hn
        simp [ec2IncludesInstance, ec2SkipInstance, pyTruthy, hf]
        intro h
        cases f with
        | mk data =>
          simp at h
          subst h
          simp at hf
      · simp [ec2IncludesInstance, ec2SkipInstance, pyTruthy, hf, hn, strContains]

/-- Witness for C5 at a concrete filter and name. -/
theorem name_filter_characterisation_witness :
    s3IncludesBucket (some ("uck")) ("my-bucket") = true :=
  ((name_filter_characterisation ("uck") ("my-bucket")).2.1).mpr (by decide)

/-! ## DynamoDB data copy (scan pages → batch-write calls)

`clone_dynamodb_tables` lines 618-629: items of each scan page are
appended to `items_to_copy`; when the list reaches 25 items it is sent
as one `batch_write_item` call and reset; a non-empty remainder is sent
after the last page. -/

/-- One iteration of the inner item loop (lines 623-627).  The state is
(pending batch, batches already sent to `batch_write_item`). -/
def copyItemStep {α : Type} (st : List α × List (List α)) (item : α) :
    List α × List (List α) :=
  let buf := st.1 ++ [item]
  if buf.length = 25 then ([], st.2 ++ [buf]) else (buf, st.2)

/-- One page of the paginated scan (lines 621-622). -/
def copyPageStep {α : Type} (st : List α × List (List α)) (page : List α) :
    List α × List (List α) :=
  page.foldl copyItemStep st

/-- The sequence of `batch_write_item` payloads issued while copying one
table (lines 618-629), including the final flush of a non-empty
remainder (lines 628-629). -/
def copyTableBatches {α : Type} (pages : List (List α)) : List (List α) :=
  let st := pages.foldl copyPageStep (([] : List α), ([] : List (List α)))
  st.2 ++ (if st.1.isEmpty then [] else [st.1])

lemma copyItemStep_fold_invariant {α : Type} (items : List α) :
    ∀ (buf : List α) (batches : List (List α)),
      buf.length < 25 → (∀ b ∈ batches, b.length = 25) →
      (items.foldl copyItemStep (buf, batches)).1.length < 25 ∧
      (∀ b ∈ (items.foldl copyItemStep (buf, batches)).2, b.length = 25) ∧
      ((items.foldl copyItemStep (buf, batches)).2).flatten
          ++ (items.foldl copyItemStep (buf, batches)).1
        = batches.flatten ++ buf ++ items := by
  induction items with
  | nil =>
    intro buf batches hb hbs
    simpa using ⟨hb, hbs⟩
  | cons x xs ih =>
    intro buf batches hb hbs
    rw [List.foldl_cons]
    by_cases h : (buf ++ [x]).length = 25
    · have hstep : copyItemStep (buf, batches) x = ([], batches ++ [buf ++ [x]]) := by
        simp [copyItemStep, h]
      rw [hstep]
      have hbs' : ∀ b ∈ batches ++ [buf ++ [x]], b.length = 25 := by
        intro b hbmem
        rcases List.mem_append.mp hbmem with hmem | hmem
        · exact hbs b hmem
        · simp only [List.mem_singleton] at hmem
          subst hmem
          exact h
      obtain ⟨h1, h2, h3⟩ := ih [] (batches ++ [buf ++ [x]]) (by simp) hbs'
      refine ⟨h1, h2, ?_⟩
      rw [h3]
      simp [List.flatten_append, List.append_assoc]
    · have h24 : ¬buf.length = 24 := by
        simp only [List.length_append, List.length_singleton] at h
        omega
      have hstep : copyItemStep (buf, batches) x = (buf ++ [x], batches) := by
        simp [copyItemStep, h24]
      rw [hstep]
      have hlen : (buf ++ [x]).length < 25 := by
        simp only [List.length_append, List.length_singleton] at h ⊢
        omega
      obtain ⟨h1, h2, h3⟩ := ih (buf ++ [x]) batches hlen hbs
      refine ⟨h1, h2, ?_⟩
      rw [h3]
      simp [List.append_assoc]

lemma copyPageStep_fold {α : Type} (pages : List (List α)) :
    ∀ st : List α × List (List α),
      pages.foldl copyPageStep st = (pages.flatten).foldl copyItemStep st := by
  induction pages with
  | nil => intro st; rfl
  | cons p ps ih =>
    intro st
    rw [List.foldl_cons, List.flatten_cons, List.foldl_append]
    exact ih _

lemma copyTableBatches_eq {α : Type} (pages : List (List α)) :
    copyTableBatches pages
      = (pages.flatten.foldl copyItemStep ([], [])).2
        ++ (if (pages.flatten.foldl copyItemStep ([], [])).1.isEmpty then []
            else [(pages.flatten.foldl copyItemStep ([], [])).1]) := by
  unfold copyTableBatches
  rw [copyPageStep_fold]

lemma flatten_append_flush {α : Type} (buf : List α) (batches : List (List α)) :
    (batches ++ if buf.isEmpty then [] else [buf]).flatten = batches.flatten ++ buf := by
  cases buf <;> simp

lemma mem_append_flush {α : Type} {b buf : List α} {batches : List (List α)}
    (h : b ∈ batches ++ if buf.isEmpty then [] else [buf]) :
    b ∈ batches ∨ (buf ≠ [] ∧ b = buf) := by
  cases buf with
  | nil => simp at h; exact Or.inl h
  | cons x xs =>
    rcases List.mem_append.mp h with hm | hm
    · exact Or.inl hm
    · simp at hm; exact Or.inr ⟨by simp, by simp [hm]⟩

lemma mem_dropLast_append_flush {α : Type} {b buf : List α} {batches : List (List α)}
    (h : b ∈ (batches ++ if buf.isEmpty then [] else [buf]).dropLast) :
    b ∈ batches := by
  cases buf with
  | nil =>
    simp only [List.isEmpty_nil, if_true, List.append_nil] at h
    exact (List.dropLast_sublist _).subset h
  | cons x xs =>
    simp only [List.isEmpty_cons, Bool.false_eq_true, if_false,
      List.dropLast_concat] at h
    exact h

/-- C2: the table data copy writes each scanned item exactly once, in
scan order (the concatenation of the issued batches is the concatenation
of the scanned pages); every batch-write call carries between 1 and 25
items; every call except possibly the last carries exactly 25; and the
total number of items written equals the total number scanned. -/
theorem dynamodb_copy_batches_spec {α : Type} (pages : List (List α)) :
    (copyTableBatches pages).flatten = pages.flatten ∧
    (∀ b ∈ copyTableBatches pages, b ≠ [] ∧ b.length ≤ 25) ∧
    (∀ b ∈ (copyTableBatches pages).dropLast, b.length = 25) ∧
    ((copyTableBatches pages).flatten).length = (pages.flatten).length := by
  obtain ⟨h1, h2, h3⟩ :=
    copyItemStep_fold_invariant (α := α) pages.flatten [] [] (by simp) (by simp)
  simp only [List.flatten_nil, List.nil_append, List.append_nil] at h3
  have hflat : (copyTableBatches pages).flatten = pages.flatten := by
    rw [copyTableBatches_eq, flatten_append_flush]
    exact h3
  refine ⟨hflat, ?_, ?_, by rw [hflat]⟩
  · intro b hbmem
    rw [copyTableBatches_eq] at hbmem
    rcases mem_append_flush hbmem with hmem | ⟨hne, hbeq⟩
    · have hlen := h2 b hmem
      constructor
      · intro hnil
        rw [hnil] at hlen
        simp at hlen
      · omega
    · subst hbeq
      exact ⟨hne, Nat.le_of_lt h1⟩
  · intro b hbmem
    rw [copyTableBatches_eq] at hbmem
    exact h2 b (mem_dropLast_append_flush hbmem)

/-- Witness for C2 at a concrete two-page scan. -/
theorem dynamodb_copy_batches_spec_witness :
    ([0, 1, 2, 3] : List Nat) ≠ [] ∧ ([0, 1, 2, 3] : List Nat).length ≤ 25 :=
  (dynamodb_copy_batches_spec ([[0, 1, 2], [3]] : List (List Nat))).2.1
    [0, 1, 2, 3] (by decide)

/-! ## DynamoDB table translation (`describe_table` → `create_table` params)

Lines 549-608 of `clone_dynamodb_tables`.  Key schemas, attribute
definitions and projections are copied verbatim and play no role in the
claims, so they are carried as opaque strings.  An `Option` field models
a dictionary key that is only conditionally present. -/

/-- A `ProvisionedThroughput` value. -/
structure Throughput where
  readCapacityUnits : Nat
  writeCapacityUnits : Nat
  deriving Repr, DecidableEq

/-- A global secondary index as returned by `describe_table`. -/
structure GsiDef where
  indexName : String
  keySchema : String
  projection : String
  provisionedThroughput : Throughput
  deriving Repr, DecidableEq

/-- A local secondary index as returned by `describe_table`; LSI
descriptions carry no `ProvisionedThroughput` of their own. -/
structure LsiDef where
  indexName : String
  keySchema : String
  projection : String
  deriving Repr, DecidableEq

/-- The fields of `desc["Table"]` that `clone_dynamodb_tables` reads
(lines 549-557).  `billingModeSummary` is the value of
`table_def.get("BillingModeSummary", {}).get("BillingMode", ...)`
before the `"PROVISIONED"` default is applied: `none` when either key
is absent. -/
structure TableDef where
  tableName : String
  keySchema : String
  attributeDefinitions : String
  globalSecondaryIndexes : List GsiDef
  localSecondaryIndexes : List LsiDef
  billingModeSummary : Option String
  provisionedThroughput : Throughput
  deriving Repr, DecidableEq

/-- Line 557: billing mode with the `"PROVISIONED"` default. -/
def tableBillingMode (t : TableDef) : String :=
  t.billingModeSummary.getD ("PROVISIONED")

/-- A GSI element of the create request.  `provisionedThroughput = none`
models the `ProvisionedThroughput` key being absent (lines 570-576). -/
structure GsiSpec where
  indexName : String
  keySchema : String
  projection : String
  provisionedThroughput : Option Throughput
  deriving Repr, DecidableEq

/-- An LSI element of the create request (lines 592-598); it never
carries a throughput key. -/
structure LsiSpec where
  indexName : String
  keySchema : String
  projection : String
  deriving Repr, DecidableEq

/-- The `create_params` dictionary assembled in lines 559-608. -/
structure CreateParams where
  tableName : String
  keySchema : String
  attributeDefinitions : String
  globalSecondaryIndexes : Option (List GsiSpec)
  localSecondaryIndexes : Option (List LsiSpec)
  billingMode : Option String
  provisionedThroughput : Option Throughput
  deriving Repr, DecidableEq

/-- Lines 556-608: translate a described table into the LocalStack
`create_table` parameters. -/
def buildCreateParams (t : TableDef) : CreateParams :=
  let billingMode := tableBillingMode t
  let gsis : Option (List GsiSpec) :=
    if t.globalSecondaryIndexes.isEmpty then none
    else if billingMode = "PAY_PER_REQUEST" then
      some (t.globalSecondaryIndexes.map (fun gsi =>
        { indexName := gsi.indexName, keySchema := gsi.keySchema,
          projection := gsi.projection, provisionedThroughput := none }))
    else
      some (t.globalSecondaryIndexes.map (fun gsi =>
        { indexName := gsi.indexName, keySchema := gsi.keySchema,
          projection := gsi.projection,
          provisionedThroughput := some
            { readCapacityUnits := max 1 gsi.provisionedThroughput.readCapacityUnits,
              writeCapacityUnits := max 1 gsi.provisionedThroughput.writeCapacityUnits } }))
  let lsis : Option (List LsiSpec) :=
    if t.localSecondaryIndexes.isEmpty then none
    else
      some (t.localSecondaryIndexes.map (fun lsi =>
        { indexName := lsi.indexName, keySchema := lsi.keySchema,
          projection := lsi.projection }))
  if billingMode = "PAY_PER_REQUEST" then
    { tableName := t.tableName, keySchema := t.keySchema,
      attributeDefinitions := t.attributeDefinitions,
      globalSecondaryIndexes := gsis, localSecondaryIndexes := lsis,
      billingMode := some ("PAY_PER_REQUEST"), provisionedThroughput := none }
  else
    { tableName := t.tableName, keySchema := t.keySchema,
      attributeDefinitions := t.attributeDefinitions,
      globalSecondaryIndexes := gsis, localSecondaryIndexes := lsis,
      billingMode := none,
      provisionedThroughput := some
        { readCapacityUnits := max 1 t.provisionedThroughput.readCapacityUnits,
          writeCapacityUnits := max 1 t.provisionedThroughput.writeCapacityUnits } }

/-- C3: the table translation is billing-mode-conditional.  With
`PAY_PER_REQUEST`, every secondary index of the create request is
emitted without throughput and the base table gets no throughput.  With
provisioned billing, each global secondary index's capacities equal
`max 1` of the source values, the base table's throughput is floored
the same way, and all resulting capacities are `≥ 1` even when a source
value is `0`.  (LSI create elements never carry a throughput key —
matching the source and the `create_table` API — so the global
secondary indexes are the only indexes with capacities on either
side.) -/
theorem dynamodb_translation_billing_conditional (t : TableDef) :
    (tableBillingMode t = "PAY_PER_REQUEST" →
      (∀ g ∈ ((buildCreateParams t).globalSecondaryIndexes.getD []),
        g.provisionedThroughput = none) ∧
      (buildCreateParams t).provisionedThroughput = none) ∧
    (tableBillingMode t ≠ "PAY_PER_REQUEST" →
      ((buildCreateParams t).globalSecondaryIndexes.getD [])
        = t.globalSecondaryIndexes.map (fun gsi =>
            { indexName := gsi.indexName, keySchema := gsi.keySchema,
              projection := gsi.projection,
              provisionedThroughput := some
                { readCapacityUnits := max 1 gsi.provisionedThroughput.readCapacityUnits,
                  writeCapacityUnits := max 1 gsi.provisionedThroughput.writeCapacityUnits } }) ∧
      (buildCreateParams t).provisionedThroughput
        = some { readCapacityUnits := max 1 t.provisionedThroughput.readCapacityUnits,
                 writeCapacityUnits := max 1 t.provisionedThroughput.writeCapacityUnits } ∧
      (∀ g ∈ ((buildCreateParams t).globalSecondaryIndexes.getD []),
        ∀ tp ∈ g.provisionedThroughput,
          1 ≤ tp.readCapacityUnits ∧ 1 ≤ tp.writeCapacityUnits)) := by
  constructor
  · intro hbm
    by_cases hg : t.globalSecondaryIndexes.isEmpty
    · simp [buildCreateParams, hbm, hg]
    · simp [buildCreateParams, hbm, hg]
  · intro hbm
    by_cases hg : t.globalSecondaryIndexes.isEmpty
    · have hnil : t.globalSecondaryIndexes = [] := List.isEmpty_iff.mp hg
      simp [buildCreateParams, hbm, hg, hnil]
    · refine ⟨?_, ?_, ?_⟩
      · simp [buildCreateParams, hbm, hg]
      · simp [buildCreateParams, hbm, hg]
      · intro g hgmem tp htp
        simp [buildCreateParams, hbm, hg] at hgmem
        obtain ⟨gsi, _, hgeq⟩ := hgmem
        rw [← hgeq] at htp
        simp at htp
        rw [← htp]
        exact ⟨Nat.le_max_left 1 _, Nat.le_max_left 1 _⟩

/-- A `PAY_PER_REQUEST` table with one GSI, for the C3 witness. -/
def ppTableExample : TableDef :=
  { tableName := "orders", keySchema := "ks", attributeDefinitions := "ad",
    globalSecondaryIndexes :=
      [{ indexName := "by-customer", keySchema := "gks", projection := "ALL",
         provisionedThroughput := { readCapacityUnits := 0, writeCapacityUnits := 0 } }],
    localSecondaryIndexes := [],
    billingModeSummary := some ("PAY_PER_REQUEST"),
    provisionedThroughput := { readCapacityUnits := 0, writeCapacityUnits := 0 } }

/-- A provisioned table whose source capacities are `0`, for the C3
witness. -/
def provTableExample : TableDef :=
  { tableName := "users", keySchema := "ks", attributeDefinitions := "ad",
    globalSecondaryIndexes :=
      [{ indexName := "by-email", keySchema := "gks", projection := "ALL",
         provisionedThroughput := { readCapacityUnits := 0, writeCapacityUnits := 0 } }],
    localSecondaryIndexes := [],
    billingModeSummary := none,
    provisionedThroughput := { readCapacityUnits := 0, writeCapacityUnits := 0 } }

/-- Witness for C3: both billing-mode branches at concrete tables. -/
theorem dynamodb_translation_billing_conditional_witness :
    (buildCreateParams ppTableExample).provisionedThroughput = none ∧
    (buildCreateParams provTableExample).provisionedThroughput
      = some { readCapacityUnits := 1, writeCapacityUnits := 1 } :=
  ⟨((dynamodb_translation_billing_conditional ppTableExample).1 (by decide)).2,
   by
    have h :=
      ((dynamodb_translation_billing_conditional provTableExample).2 (by decide)).2.1
    simpa using h⟩

/-! ## DynamoDB guard-create across re-runs (C1)

The target state is the set of existing table names.  The target
semantics of `create_table` — erroring with `ResourceInUseException` on
an existing name — is the backstop the script relies on (lines 611-616
catch exactly that exception); spec §5 names this error explicitly. -/

/-- Line 546: the table-name filter of `clone_dynamodb_tables`. -/
def dynamoSkipTable (filterName : Option String) (tableName : String) : Bool :=
  pyTruthy filterName && !(strContains tableName (filterName.getD ("")))

/-- LocalStack DynamoDB state visible to the migrator. -/
structure DynamoState where
  tables : List String
  deriving Repr, DecidableEq

/-- Lines 611-616: attempt `create_table`; an existing name raises
`ResourceInUseException`, which the source catches and reports as
already existing; otherwise the table is created. -/
def dynamoCreateTable (st : DynamoState) (name : String) : DynamoState × Outcome :=
  if name ∈ st.tables then (st, Outcome.alreadyExists)
  else ({ tables := st.tables ++ [name] }, Outcome.created)

/-- Lines 545-616 of `clone_dynamodb_tables`: the per-table loop,
restricted to filtering and guard-create.  Returns the target state
after the run and the per-table outcomes in listing order. -/
def clone_dynamodb_tables :
    DynamoState → List String → Option String → DynamoState × List (String × Outcome)
  | st, [], _ => (st, [])
  | st, name :: rest, f =>
    if dynamoSkipTable f name then clone_dynamodb_tables st rest f
    else
      let c := dynamoCreateTable st name
      let r := clone_dynamodb_tables c.1 rest f
      (r.1, (name, c.2) :: r.2)

lemma dynamoCreateTable_mono {st : DynamoState} {name n : String}
    (h : n ∈ st.tables) : n ∈ (dynamoCreateTable st name).1.tables := by
  unfold dynamoCreateTable
  by_cases hmem : name ∈ st.tables
  · simpa [hmem]
  · simp [hmem]
    exact Or.inl h

lemma dynamo_tables_mono (ts : List String) :
    ∀ (st : DynamoState) (f : Option String) (n : String),
      n ∈ st.tables → n ∈ (clone_dynamodb_tables st ts f).1.tables := by
  induction ts with
  | nil => intro st f n h; exact h
  | cons name rest ih =>
    intro st f n h
    simp only [clone_dynamodb_tables]
    by_cases hskip : dynamoSkipTable f name
    · rw [if_pos hskip]
      exact ih st f n h
    · rw [if_neg hskip]
      exact ih _ f n (dynamoCreateTable_mono h)

lemma dynamo_run_creates (ts : List String) :
    ∀ (st : DynamoState) (f : Option String) (n : String),
      n ∈ ts → dynamoSkipTable f n = false →
      n ∈ (clone_dynamodb_tables st ts f).1.tables := by
  induction ts with
  | nil => intro st f n h; simp at h
  | cons name rest ih =>
    intro st f n hmem hskip
    simp only [clone_dynamodb_tables]
    rcases List.mem_cons.mp hmem with heq | htail
    · subst heq
      rw [if_neg (by simp [hskip])]
      refine dynamo_tables_mono rest _ f n ?_
      unfold dynamoCreateTable
      by_cases hmem2 : n ∈ st.tables
      · simp [hmem2]
      · simp [hmem2]
    · by_cases hskip2 : dynamoSkipTable f name
      · rw [if_pos hskip2]
        exact ih st f n htail hskip
      · rw [if_neg hskip2]
        exact ih _ f n htail hskip

lemma dynamo_rerun (ts : List String) :
    ∀ (st : DynamoState) (f : Option String),
      (∀ n ∈ ts, dynamoSkipTable f n = false → n ∈ st.tables) →
      clone_dynamodb_tables st ts f
        = (st, (ts.filter (fun n => !(dynamoSkipTable f n))).map
            (fun n => (n, Outcome.alreadyExists))) := by
  induction ts with
  | nil => intro st f h; rfl
  | cons name rest ih =>
    intro st f h
    simp only [clone_dynamodb_tables]
    by_cases hskip : dynamoSkipTable f name
    · rw [if_pos hskip]
      rw [ih st f (fun n hn => h n (List.mem_cons_of_mem _ hn))]
      simp [List.filter_cons, hskip]
    · have hmem : name ∈ st.tables :=
        h name (List.mem_cons_self _ _) (by simpa using hskip)
      have hcreate : dynamoCreateTable st name = (st, Outcome.alreadyExists) := by
        simp [dynamoCreateTable, hmem]
      rw [if_neg hskip]
      simp only [hcreate]
      rw [ih st f (fun n hn => h n (List.mem_cons_of_mem _ hn))]
      simp [List.filter_cons, hskip]

lemma dynamo_run_ids (ts : List String) :
    ∀ (st : DynamoState) (f : Option String),
      (clone_dynamodb_tables st ts f).2.map Prod.fst
        = ts.filter (fun n => !(dynamoSkipTable f n)) := by
  induction ts with
  | nil => intro st f; rfl
  | cons name rest ih =>
    intro st f
    simp only [clone_dynamodb_tables]
    by_cases hskip : dynamoSkipTable f name
    · rw [if_pos hskip]
      simp [List.filter_cons, hskip, ih]
    · rw [if_neg hskip]
      simp [List.filter_cons, hskip, ih]

/-- C1 (amended): for the tabular-store kind only, re-running the
migration with identical inputs against the state produced by the first
run yields the already-exists outcome for every processed identifier
(never a failed outcome), leaves the target state unchanged (no
duplicate resource), and processes exactly the identifiers of the first
run. -/
theorem dynamodb_rerun_already_exists (st st₁ st₂ : DynamoState)
    (ts : List String) (f : Option String)
    (outs₁ outs₂ : List (String × Outcome))
    (h₁ : clone_dynamodb_tables st ts f = (st₁, outs₁))
    (h₂ : clone_dynamodb_tables st₁ ts f = (st₂, outs₂)) :
    st₂ = st₁ ∧ (∀ p ∈ outs₂, p.2 = Outcome.alreadyExists) ∧
    outs₂.map Prod.fst = outs₁.map Prod.fst := by
  have hall : ∀ n ∈ ts, dynamoSkipTable f n = false → n ∈ st₁.tables := by
    intro n hn hskip
    have hmem := dynamo_run_creates ts st f n hn hskip
    rw [h₁] at hmem
    exact hmem
  have hrerun := dynamo_rerun ts st₁ f hall
  rw [h₂] at hrerun
  have hst : st₂ = st₁ := congrArg Prod.fst hrerun
  have houts : outs₂
      = (ts.filter (fun n => !(dynamoSkipTable f n))).map
          (fun n => (n, Outcome.alreadyExists)) :=
    congrArg Prod.snd hrerun
  refine ⟨hst, ?_, ?_⟩
  · intro p hp
    rw [houts] at hp
    obtain ⟨n, _, hpe⟩ := List.mem_map.mp hp
    rw [← hpe]
  · have hids₁ := dynamo_run_ids ts st f
    rw [h₁] at hids₁
    rw [houts, List.map_map,
      show (Prod.fst ∘ fun n => (n, Outcome.alreadyExists)) = (id : String → String) from rfl,
      List.map_id]
    exact hids₁.symm

/-- Witness for C1's amended theorem at a one-table run. -/
theorem dynamodb_rerun_already_exists_witness :
    (("t"), Outcome.alreadyExists).2 = Outcome.alreadyExists :=
  (dynamodb_rerun_already_exists ⟨[]⟩ ⟨[("t")]⟩ ⟨[("t")]⟩ [("t")] none
      [(("t"), Outcome.created)] [(("t"), Outcome.alreadyExists)]
      (by decide) (by decide)).2.1
    (("t"), Outcome.alreadyExists) (by decide)

/-! ## RDS instance cloning (C1 counterexample, C7, C8) -/

/-- The fields of one `DBInstances` entry that `clone_rds_instances`
reads; `Option` models `dict.get`. -/
structure RdsDescriptor where
  dbInstanceIdentifier : Option String
  dbInstanceClass : Option String
  engine : Option String
  masterUsername : Option String
  dbName : Option String
  deriving Repr, DecidableEq

/-- Line 428: the instance-identifier filter. -/
def rdsSkipInstance (filterName : Option String) (id : String) : Bool :=
  pyTruthy filterName && !(strContains id (filterName.getD ("")))

/-- Target semantics of `rds create-db-instance` (lines 437-445): the
CLI call errors when the identifier already exists (the target's
already-exists error, spec §5); otherwise the instance is created. -/
def rdsCreateDbInstance (existing : List String) (id : String) : List String × Bool :=
  if id ∈ existing then (existing, true) else (existing ++ [id], false)

/-- Lines 424-448 of `clone_rds_instances`: listing, filtering and
creation.  A create error is printed as a failure and the loop moves on
(lines 446-448); there is no already-exists special case. -/
def clone_rds_instances :
    List String → List RdsDescriptor → Option String → List String × List (String × Outcome)
  | existing, [], _ => (existing, [])
  | existing, d :: rest, f =>
    if !(pyTruthy d.dbInstanceIdentifier) then clone_rds_instances existing rest f
    else
      let id := d.dbInstanceIdentifier.getD ("")
      if rdsSkipInstance f id then clone_rds_instances existing rest f
      else
        let c := rdsCreateDbInstance existing id
        let r := clone_rds_instances c.1 rest f
        (r.1, (id, if c.2 then Outcome.failed else Outcome.created) :: r.2)

/-- The RDS descriptor used in the C1 counterexample. -/
def rdsExampleDescriptor : RdsDescriptor :=
  { dbInstanceIdentifier := some ("db1"), dbInstanceClass := none,
    engine := none, masterUsername := none, dbName := none }

/-- C1 counterexample: the relational-database migrator has no
idempotency guard — re-running it with identical inputs against the
target produced by the first run reports the previously created
identifier as failed, not as already-exists. -/
theorem rds_rerun_fails_counterexample :
    (clone_rds_instances [] [rdsExampleDescriptor] none).2
      = [(("db1"), Outcome.created)] ∧
    (clone_rds_instances
        (clone_rds_instances [] [rdsExampleDescriptor] none).1
        [rdsExampleDescriptor] none).2
      = [(("db1"), Outcome.failed)] ∧
    Outcome.failed ≠ Outcome.alreadyExists := by decide

/-! ## Existence checks versus create calls (C4) -/

/-- Calls issued against the LocalStack S3 endpoint. -/
inductive S3Call
  | headBucket (name : String)
  | createBucket (name : String)
  deriving Repr, DecidableEq

/-- Lines 64-71 of `clone_s3_buckets` as the trace of target calls: a
create-bucket command is issued for every bucket passing the filter,
with no existence check anywhere in the loop. -/
def clone_s3_buckets : List String → Option String → List S3Call
  | [], _ => []
  | b :: rest, f =>
    if s3SkipBucket f b then clone_s3_buckets rest f
    else S3Call.createBucket b :: clone_s3_buckets rest f

/-- What `head_bucket` reports in `ensure_bucket_exists`: success, a
ClientError with code 404, or a ClientError with another code (which is
re-raised). -/
inductive HeadResult
  | ok
  | notFound
  | otherError
  deriving Repr, DecidableEq

/-- Lines 91-103, `ensure_bucket_exists`, as the trace of target calls:
head the bucket; only on a 404 create it; on success or any other error
code no create is issued. -/
def ensure_bucket_exists (hr : HeadResult) (name : String) : List S3Call :=
  S3Call.headBucket name ::
    match hr with
    | HeadResult.ok => []
    | HeadResult.notFound => [S3Call.createBucket name]
    | HeadResult.otherError => []

/-- C4 counterexample: the bucket migrator issues a create call with no
preceding existence check — on the one-bucket listing its whole trace
is a single unguarded create. -/
theorem s3_create_without_check_counterexample :
    clone_s3_buckets [("b")] none = [S3Call.createBucket ("b")] ∧
    S3Call.headBucket ("b") ∉ clone_s3_buckets [("b")] none := by decide

/-- C4 (amended): only the staging-bucket helper `ensure_bucket_exists`
(and the trigger stubber, see `stub_trigger_lambdas`) checks existence
strictly before creating: whenever its trace contains a create call,
the existence check came first and reported the bucket absent. -/
theorem ensure_bucket_exists_checks_first (hr : HeadResult) (name : String)
    (h : S3Call.createBucket name ∈ ensure_bucket_exists hr name) :
    hr = HeadResult.notFound ∧
    ensure_bucket_exists hr name
      = [S3Call.headBucket name, S3Call.createBucket name] := by
  cases hr with
  | ok => simp [ensure_bucket_exists] at h
  | notFound => exact ⟨rfl, rfl⟩
  | otherError => simp [ensure_bucket_exists] at h

/-- Witness for C4's amended theorem. -/
theorem ensure_bucket_exists_checks_first_witness :
    HeadResult.notFound = HeadResult.notFound ∧
    ensure_bucket_exists HeadResult.notFound ("stage")
      = [S3Call.headBucket ("stage"), S3Call.createBucket ("stage")] :=
  ensure_bucket_exists_checks_first HeadResult.notFound ("stage") (by decide)

/-! ## Cognito trigger stubbing (C6) -/

/-- A value of the `LambdaConfig` dict: a string ARN or a non-string
value (line 380 checks `isinstance(trigger_arn, str)`). -/
inductive TriggerRef
  | str (s : String)
  | nonStr
  deriving Repr, DecidableEq

/-- Line 385: `trigger_arn.split(":function:")[-1]`. -/
def parsedFunctionName (arn : String) : String :=
  ((arn.splitOn (":function:")).getLast?).getD arn

/-- Lines 379-404 of `stub_trigger_lambdas`, one `LambdaConfig` entry:
skip non-strings and strings without the `"function:"` marker (lines
380-381); otherwise look the parsed name up in LocalStack
(`get_function`, line 389) and only when it is absent create a stub
function of that name (lines 396-404).  Returns the new target function
list and the created name, if any. -/
def stubTriggerStep (existing : List String) (entry : String × TriggerRef) :
    List String × Option String :=
  match entry.2 with
  | TriggerRef.nonStr => (existing, none)
  | TriggerRef.str arn =>
    if strContains arn ("function:") then
      let fn := parsedFunctionName arn
      if fn ∈ existing then (existing, none) else (fn :: existing, some fn)
    else (existing, none)

/-- Lines 379-407: the loop over the whole trigger map, threading the
target state (a stub created for one entry is visible to the lookups of
later entries).  Returns the final state and the created names. -/
def stub_trigger_lambdas :
    List String → List (String × TriggerRef) → List String × List String
  | existing, [] => (existing, [])
  | existing, e :: rest =>
    let s := stubTriggerStep existing e
    let r := stub_trigger_lambdas s.1 rest
    (r.1, (match s.2 with | none => [] | some fn => [fn]) ++ r.2)

/-- C6: an entry of the trigger map leads to a create call if and only
if its reference is a string containing the `"function:"` marker whose
parsed function name is absent from the target; the created stand-in
carries exactly the parsed name; and in every other case the entry is a
no-op on the target. -/
theorem stub_trigger_create_iff (existing : List String) (key : String) (ref : TriggerRef) :
    ((stubTriggerStep existing (key, ref)).2 ≠ none ↔
      ∃ s, ref = TriggerRef.str s ∧ strContains s ("function:") = true ∧
        parsedFunctionName s ∉ existing) ∧
    (∀ s, ref = TriggerRef.str s → strContains s ("function:") = true →
      parsedFunctionName s ∉ existing →
      stubTriggerStep existing (key, ref)
        = (parsedFunctionName s :: existing, some (parsedFunctionName s))) ∧
    ((stubTriggerStep existing (key, ref)).2 = none →
      (stubTriggerStep existing (key, ref)).1 = existing) := by
  cases ref with
  | nonStr =>
    refine ⟨?_, ?_, ?_⟩
    · constructor
      · intro hne
        exact absurd rfl hne
      · rintro ⟨s, hs, -, -⟩
        cases hs
    · intro s hs
      cases hs
    · intro _
      rfl
  | str arn =>
    by_cases hc : strContains arn ("function:")
    · by_cases hm : parsedFunctionName arn ∈ existing
      · have hstep : stubTriggerStep existing (key, TriggerRef.str arn) = (existing, none) := by
          simp [stubTriggerStep, hc, hm]
        refine ⟨?_, ?_, ?_⟩
        · constructor
          · intro hne
            rw [hstep] at hne
            exact absurd rfl hne
          · rintro ⟨s, hs, -, hmem⟩
            injection hs with he
            subst he
            exact absurd hm hmem
        · intro s hs _hcs hmem
          injection hs with he
          subst he
          exact absurd hm hmem
        · intro _
          rw [hstep]
      · have hstep : stubTriggerStep existing (key, TriggerRef.str arn)
            = (parsedFunctionName arn :: existing, some (parsedFunctionName arn)) := by
          simp [stubTriggerStep, hc, hm]
        refine ⟨?_, ?_, ?_⟩
        · constructor
          · intro _
            exact ⟨arn, rfl, hc, hm⟩
          · intro _
            rw [hstep]
            simp
        · intro s hs _hcs _hmem
          injection hs with he
          subst he
          exact hstep
        · intro hnone
          rw [hstep] at hnone
          simp at hnone
    · have hstep : stubTriggerStep existing (key, TriggerRef.str arn) = (existing, none) := by
        simp [stubTriggerStep, hc]
      refine ⟨?_, ?_, ?_⟩
      · constructor
        · intro hne
          rw [hstep] at hne
          exact absurd rfl hne
        · rintro ⟨s, hs, hcs, -⟩
          injection hs with he
          subst he
          exact absurd hcs hc
      · intro s hs hcs _hmem
        injection hs with he
        subst he
        exact absurd hcs hc
      · intro _
        rw [hstep]

/-- A trigger ARN for the C6 witness. -/
def arnExample : String := "arn:aws:lambda:us-east-1:123456789012:function:MyFunc"

/-- Witness for C6: a marker-bearing ARN whose function is absent does
lead to a creation. -/
theorem stub_trigger_create_iff_witness :
    (stubTriggerStep [] (("PreSignUp"), TriggerRef.str arnExample)).2 ≠ none :=
  ((stub_trigger_create_iff [] ("PreSignUp") (TriggerRef.str arnExample)).1).mpr
    ⟨arnExample, rfl, by decide, by decide⟩

/-! ## RDS dump/restore cleanup (C7) -/

/-- Whether the instance's dump file exists on disk. -/
structure FsState where
  dumpFileExists : Bool
  deriving Repr, DecidableEq

/-- The outcome knobs of one data-copy attempt: whether `mysqldump`
(line 494) and the local `mysql` import (line 510) fail. -/
structure RdsCopyRun where
  dumpFails : Bool
  importFails : Bool
  deriving Repr, DecidableEq

/-- Lines 485-518 of `clone_rds_instances`, the dump/restore tail for
one instance, tracking the dump file.  The shell redirection
`> dump_file` creates the file before `mysqldump` runs, so the file
exists even when the dump command fails; on a dump error the loop
`continue`s (lines 495-497) with no cleanup; otherwise the sleep and
the import follow (an import error is only printed, lines 511-514) and
lines 517-518 remove the file. -/
def rdsDataCopy (r : RdsCopyRun) : FsState :=
  let afterDump : FsState := { dumpFileExists := true }
  if r.dumpFails then afterDump
  else
    let afterImport := afterDump
    if afterImport.dumpFileExists then { dumpFileExists := false } else afterImport

/-- C7 counterexample: when the dump command fails, the intermediate
artifact persists — whether or not the import would have failed — so
the artifact is not released on every exit path after the dump
started. -/
theorem rds_dump_cleanup_counterexample :
    (rdsDataCopy ⟨true, false⟩).dumpFileExists = true ∧
    (rdsDataCopy ⟨true, true⟩).dumpFileExists = true := by
  decide

/-- C7 (amended): the dump artifact is removed after the restore
attempt, on restore success and restore failure alike; only the
dump-failure exit path leaves it behind. -/
theorem rds_dump_removed_after_import (r : RdsCopyRun)
    (h : r.dumpFails = false) :
    (rdsDataCopy r).dumpFileExists = false := by
  cases r with
  | mk d i =>
    simp only at h
    subst h
    rfl

/-- Witness for C7's amended theorem. -/
theorem rds_dump_removed_after_import_witness :
    (rdsDataCopy ⟨false, true⟩).dumpFileExists = false :=
  rds_dump_removed_after_import ⟨false, true⟩ rfl

/-! ## RDS create-request credentials (C8) -/

/-- The LocalStack-side MySQL credentials (`LOCAL_MYSQL_USER`,
`LOCAL_MYSQL_PASSWORD`, lines 51-52). -/
structure LocalMysqlConfig where
  user : String
  password : String
  deriving Repr, DecidableEq

/-- The fields of the `rds create-db-instance` command (lines 437-444). -/
structure RdsCreateRequest where
  dbInstanceIdentifier : String
  dbInstanceClass : String
  engine : String
  masterUsername : String
  masterUserPassword : String
  deriving Repr, DecidableEq

/-- Lines 425-444: the create request assembled for one descriptor
(`none` when the identifier is missing or empty, lines 425-427).  The
master credential pair comes from the local configuration; the
descriptor's `MasterUsername` and the source master password are read
only by the later dump step (lines 471, 478), never here. -/
def rdsCreateRequest (cfg : LocalMysqlConfig) (d : RdsDescriptor) :
    Option RdsCreateRequest :=
  if !(pyTruthy d.dbInstanceIdentifier) then none
  else
    some
      { dbInstanceIdentifier := d.dbInstanceIdentifier.getD (""),
        dbInstanceClass := d.dbInstanceClass.getD ("db.t2.micro"),
        engine := (d.engine.getD ("mysql")).toLower,
        masterUsername := cfg.user,
        masterUserPassword := cfg.password }

lemma rdsCreateRequest_eq (cfg : LocalMysqlConfig) (d : RdsDescriptor)
    (hid : pyTruthy d.dbInstanceIdentifier = true) :
    rdsCreateRequest cfg d
      = some
          { dbInstanceIdentifier := d.dbInstanceIdentifier.getD (""),
            dbInstanceClass := d.dbInstanceClass.getD ("db.t2.micro"),
            engine := (d.engine.getD ("mysql")).toLower,
            masterUsername := cfg.user,
            masterUserPassword := cfg.password } := by
  rw [rdsCreateRequest, if_neg]
  rw [hid]
  simp

/-- C8: every issued creation request carries the local master username
and password, and the request is independent of the descriptor's source
master-credential field — replacing `MasterUsername` by anything leaves
the request unchanged (and the source master password is not an input
of the request at all), so source credentials cannot flow into any
field of the request. -/
theorem rds_create_request_credentials (cfg : LocalMysqlConfig) (d : RdsDescriptor)
    (r : RdsCreateRequest) (h : rdsCreateRequest cfg d = some r) :
    r.masterUsername = cfg.user ∧ r.masterUserPassword = cfg.password ∧
    ∀ u : Option String,
      rdsCreateRequest cfg
        { dbInstanceIdentifier := d.dbInstanceIdentifier,
          dbInstanceClass := d.dbInstanceClass, engine := d.engine,
          masterUsername := u, dbName := d.dbName } = some r := by
  have hid : pyTruthy d.dbInstanceIdentifier = true := by
    by_contra hc
    rw [Bool.not_eq_true] at hc
    rw [rdsCreateRequest] at h
    rw [hc] at h
    simp at h
  rw [rdsCreateRequest_eq cfg d hid] at h
  injection h with h2
  subst h2
  refine ⟨rfl, rfl, fun u => ?_⟩
  exact rdsCreateRequest_eq cfg _ hid

/-- The local credentials used by the C8 witness. -/
def localCfgExample : LocalMysqlConfig := { user := "master", password := "secret99" }

/-- Witness for C8 at a concrete descriptor. -/
theorem rds_create_request_credentials_witness :
    ({ dbInstanceIdentifier := "db1", dbInstanceClass := "db.t2.micro",
       engine := "mysql", masterUsername := "master",
       masterUserPassword := "secret99" } : RdsCreateRequest).masterUsername
      = localCfgExample.user :=
  (rds_create_request_credentials localCfgExample rdsExampleDescriptor _ rfl).1

/-! ## Cognito user-pool cloning (C9) -/

/-- One entry of a `list_users` page: username and attribute list
(lines 326-328). -/
structure SrcUser where
  username : String
  attributes : List (String × String)
  deriving Repr, DecidableEq

/-- One `admin_create_user` call (lines 331-337). -/
structure AdminCreateUserCall where
  userPoolId : String
  username : String
  userAttributes : List (String × String)
  temporaryPassword : String
  messageAction : String
  deriving Repr, DecidableEq

/-- Lines 314-346: the pagination loop over `list_users`; every user of
every page is created in the new local pool with the fixed temporary
password and the suppressed invitation message (lines 331-337). -/
def cloneUsers (localPoolId : String) : List (List SrcUser) → List AdminCreateUserCall
  | [] => []
  | page :: rest =>
    page.map (fun u =>
      { userPoolId := localPoolId, username := u.username,
        userAttributes := u.attributes,
        temporaryPassword := "TempPass123!", messageAction := "SUPPRESS" })
      ++ cloneUsers localPoolId rest

/-- A user-pool client as listed/described (lines 265-275). -/
structure SrcClient where
  clientName : String
  deriving Repr, DecidableEq

/-- Lines 269-301: every described client is re-created in the local
pool, keyed by the new pool id and the source client name. -/
def cloneClients (localPoolId : String) (clients : List SrcClient) :
    List (String × String) :=
  clients.map (fun c => (localPoolId, c.clientName))

lemma cloneUsers_usernames (localPoolId : String) (pages : List (List SrcUser)) :
    (cloneUsers localPoolId pages).map (fun c => c.username)
      = (pages.flatten).map (fun u => u.username) := by
  induction pages with
  | nil => rfl
  | cons p rest ih => simp [cloneUsers, ih]

lemma cloneUsers_constants (localPoolId : String) :
    ∀ (pages : List (List SrcUser)), ∀ c ∈ cloneUsers localPoolId pages,
      c.userPoolId = localPoolId ∧ c.temporaryPassword = "TempPass123!" ∧
      c.messageAction = "SUPPRESS" := by
  intro pages
  induction pages with
  | nil =>
    intro c hc
    simp [cloneUsers] at hc
  | cons p rest ih =>
    intro c hc
    simp only [cloneUsers] at hc
    rcases List.mem_append.mp hc with hm | hm
    · obtain ⟨u, _, he⟩ := List.mem_map.mp hm
      rw [← he]
      exact ⟨rfl, rfl, rfl⟩
    · exact ih c hm

/-- C9: cloning a pool copies, via pagination, every source user — in
order, one create call per user — into the newly created local pool,
each with the fixed temporary password `"TempPass123!"` and invitation
messages suppressed, independent of the source user's data; and each
app client of the pool is re-created in the local pool. -/
theorem cognito_pool_clone_users_clients (localPoolId : String)
    (pages : List (List SrcUser)) (clients : List SrcClient) :
    (cloneUsers localPoolId pages).map (fun c => c.username)
      = (pages.flatten).map (fun u => u.username) ∧
    (∀ c ∈ cloneUsers localPoolId pages,
      c.userPoolId = localPoolId ∧ c.temporaryPassword = "TempPass123!" ∧
      c.messageAction = "SUPPRESS") ∧
    (cloneClients localPoolId clients).map Prod.snd
      = clients.map (fun c => c.clientName) ∧
    (cloneClients localPoolId clients).map Prod.fst
      = clients.map (fun _ => localPoolId) := by
  refine ⟨cloneUsers_usernames localPoolId pages,
    cloneUsers_constants localPoolId pages, ?_, ?_⟩
  · simp [cloneClients]
  · induction clients with
    | nil => rfl
    | cons c rest ih =>
      simp [cloneClients] at ih ⊢
      exact ih

/-- A source user for the C9 witness. -/
def srcUserExample : SrcUser :=
  { username := "alice", attributes := [(("email"), ("alice@example.com"))] }

/-- The create call produced for `srcUserExample`. -/
def adminCallExample : AdminCreateUserCall :=
  { userPoolId := "pool-local", username := "alice",
    userAttributes := [(("email"), ("alice@example.com"))],
    temporaryPassword := "TempPass123!", messageAction := "SUPPRESS" }

/-- Witness for C9 at a one-user page. -/
theorem cognito_pool_clone_users_clients_witness :
    adminCallExample.userPoolId = "pool-local" ∧
    adminCallExample.temporaryPassword = "TempPass123!" ∧
    adminCallExample.messageAction = "SUPPRESS" :=
  (cognito_pool_clone_users_clients ("pool-local") [[srcUserExample]] []).2.1
    adminCallExample (by decide)

/-! ## EC2 migration has no target effect (C10) -/

/-- A create-type call against the target for the EC2 kind. -/
inductive Ec2Call
  | createInstance (tags : List (String × String))
  deriving Repr, DecidableEq

/-- Lines 83-88, the inner loop over one reservation's instances:
compute the name tag, `continue` on a filter mismatch, otherwise `pass`
(line 88) — each branch issues no call. -/
def ec2ReservationCalls (f : Option String) :
    List (List (String × String)) → List Ec2Call
  | [] => []
  | inst :: rest =>
    (if ec2SkipInstance f (ec2InstanceName inst) then [] else [])
      ++ ec2ReservationCalls f rest

/-- Lines 74-88 of `clone_ec2_instances`: the loop over reservations,
as the trace of target calls issued. -/
def clone_ec2_instances (f : Option String) :
    List (List (List (String × String))) → List Ec2Call
  | [] => []
  | r :: rest => ec2ReservationCalls f r ++ clone_ec2_instances f rest

lemma ec2ReservationCalls_nil (f : Option String)
    (insts : List (List (String × String))) :
    ec2ReservationCalls f insts = [] := by
  induction insts with
  | nil => rfl
  | cons i rest ih => simp [ec2ReservationCalls, ih]

/-- C10: the EC2 migrator lists and filters but issues no create call
for any input, so folding its call trace over any target state leaves
the state unchanged. -/
theorem ec2_clone_no_target_effect (f : Option String)
    (reservations : List (List (List (String × String)))) :
    clone_ec2_instances f reservations = [] ∧
    ∀ (S : Type) (σ : S) (applyCall : S → Ec2Call → S),
      (clone_ec2_instances f reservations).foldl applyCall σ = σ := by
  have hnil : clone_ec2_instances f reservations = [] := by
    induction reservations with
    | nil => rfl
    | cons r rest ih => simp [clone_ec2_instances, ec2ReservationCalls_nil, ih]
  exact ⟨hnil, fun S σ applyCall => by rw [hnil]; rfl⟩

/-- Witness for C10 at a concrete reservation list and target state. -/
theorem ec2_clone_no_target_effect_witness :
    clone_ec2_instances none [[[(("Name"), ("web"))]]] = [] ∧
    (clone_ec2_instances none [[[(("Name"), ("web"))]]]).foldl
      (fun (s : Nat) (_ : Ec2Call) => s + 1) 0 = 0 :=
  ⟨(ec2_clone_no_target_effect none [[[(("Name"), ("web"))]]]).1,
   (ec2_clone_no_target_effect none [[[(("Name"), ("web"))]]]).2 Nat 0
     (fun s _ => s + 1)⟩

end AwsToLocalstack
